import Mathlib

/-!
Shallow embedding of `src/main.py` of the my-stock-ai repository: a
stock-watchlist dashboard that loads a watchlist from a cloud sheet,
analyzes each ticker (`get_stock_analysis`) and renders one card per
successfully analyzed symbol.

External collaborators (the market-data provider, the pandas_ta
indicator library, the charting layer) are modelled as inputs: a fetch
either fails (any raised exception, modelled as `none`) or yields the
bar series, fundamental metadata and the last-row indicator values.
All numbers are rationals.
-/

namespace StockAI

/-- One daily OHLCV price bar (`open` is a Lean keyword, hence `openP`). -/
structure PriceBar where
  openP : ℚ
  high : ℚ
  low : ℚ
  close : ℚ
  volume : ℚ
deriving DecidableEq

/-- Fundamental metadata returned by the provider (`ticker_obj.info`).
Every field is optional: the Python code reads them with `info.get(key, fallback)`. -/
structure Info where
  industry : Option String
  trailingEps : Option ℚ
  trailingPE : Option ℚ
  bookValue : Option ℚ
  shortName : Option String
deriving DecidableEq

/-- Everything the external collaborators hand to one analyzer run:
the fetched daily bar series (chronological), the fundamental metadata,
and the final-row values of the pandas_ta indicator columns
(`STOCHk_9_3_3`, `RSI_14`, `MACDH_12_26_9`, `ATRr_14`). -/
structure FetchData where
  series : List PriceBar
  info : Info
  stochK : ℚ
  rsi14 : ℚ
  macdH : ℚ
  atr14 : ℚ
deriving DecidableEq

/-- One watchlist row. `cost = none` models a missing `Cost` column or a
NaN cell (the loop maps both to `0` before the positivity test);
`note` is carried but never read by the analysis. -/
structure Row where
  ticker : String
  cost : Option ℚ
  note : Option String
deriving DecidableEq

/-- The flat result record returned by `get_stock_analysis` on success. -/
structure AnalysisResult where
  series : List PriceBar
  info : Info
  price : ℚ
  intrinsic : ℚ
  model_type : String
  k : ℚ
  rsi : ℚ
  macd_h : ℚ
  stop_loss : ℚ
  trend : String
  roi : Option ℚ
deriving DecidableEq

/-- Bool test: does `needle` occur at the head of `hay`? (char-list version
of Python string prefix matching used below to model `x in industry`). -/
def charsLeadWith : List Char → List Char → Bool
  | [], _ => true
  | _ :: _, [] => false
  | a :: as, b :: bs => a == b && charsLeadWith as bs

/-- Bool test: does `needle` occur as a contiguous substring of `hay`?
Models the Python substring test (needle in hay) on strings, case-sensitive. -/
def charsContain (needle : List Char) : List Char → Bool
  | [] => charsLeadWith needle []
  | b :: bs => charsLeadWith needle (b :: bs) || charsContain needle bs

/-- Test `strContains hay needle`, modelling the Python expression needle in hay. -/
def strContains (hay needle : String) : Bool :=
  charsContain needle.toList hay.toList

/-- The fixed industry keyword set selecting the Price-to-Book model
(line 58 of `main.py`). -/
def pbKeywords : List String :=
  ["Bank", "Insurance", "Shipping", "Steel", "Basic Materials"]

/-- Model-selection test `is_pb_model` from line 58 of main.py, the Python
expression being any of the keyword substring tests over the industry string. -/
def is_pb_model (industry : String) : Bool :=
  pbKeywords.any (fun x => strContains industry x)

/-- Trend tag `"🔥 多頭強勢"` (line 72). -/
def strongLabel : String := "🔥 多頭強勢"

/-- Trend tag `"⚠️ 趨勢轉弱"` (line 72). -/
def weakLabel : String := "⚠️ 趨勢轉弱"

/-- Simple moving average of window `n` at the last position
(`Series.rolling(n).mean().iloc[-1]`): `none` models the NaN produced
when fewer than `n` values exist. -/
def sma (n : ℕ) (xs : List ℚ) : Option ℚ :=
  if xs.length < n then none
  else some ((xs.drop (xs.length - n)).sum / (n : ℚ))

/-- Line 72: the strong tag when the latest close is above ma20, else the weak tag.
A comparison against NaN (`none`) is False in Python, giving the weak label. -/
def trendLabel (close : ℚ) (m : Option ℚ) : String :=
  match m with
  | some v => if v < close then strongLabel else weakLabel
  | none => weakLabel

/-- Line 85: (latest close minus cost_price) / cost_price * 100 when cost_price is truthy, else None.
`none` and `0` are both falsy in Python. -/
def roiOf (close : ℚ) (cost_price : Option ℚ) : Option ℚ :=
  match cost_price with
  | none => none
  | some c => if c = 0 then none else some ((close - c) / c * 100)

/-- Analyzer `get_stock_analysis` (lines 36–88 of main.py).
`fetched = none` models any exception raised while downloading bars,
computing indicators or fetching metadata: the blanket `except` turns it
into `None`.  An empty series returns `None` at line 40.  With exactly
one bar, `df.iloc[-2]` at line 50 raises IndexError, absorbed by the
same blanket handler (the bound `prev` is never used afterwards). -/
def get_stock_analysis (fetched : Option FetchData) (cost_price : Option ℚ) :
    Option AnalysisResult :=
  match fetched with
  | none => none
  | some d =>
    match d.series.getLast? with
    | none => none
    | some curr =>
      if d.series.length < 2 then none
      else
        let industry := d.info.industry.getD ""
        let is_pb := is_pb_model industry
        let intrinsic_v :=
          if is_pb then d.info.bookValue.getD 0 * (13 / 10 : ℚ)
          else d.info.trailingEps.getD 0 * d.info.trailingPE.getD 15
        let model_type := if is_pb then "P/B" else "P/E"
        let stop_loss := curr.close - d.atr14 * 2
        let ma20 := sma 20 (d.series.map PriceBar.close)
        some
          { series := d.series
            info := d.info
            price := curr.close
            intrinsic := intrinsic_v
            model_type := model_type
            k := d.stochK
            rsi := d.rsi14
            macd_h := d.macdH
            stop_loss := stop_loss
            trend := trendLabel curr.close ma20
            roi := roiOf curr.close cost_price }

/-- Close of the last fetched bar, `0` on an empty series. -/
def lastCloseOf (d : FetchData) : ℚ :=
  match d.series.getLast? with
  | some b => b.close
  | none => 0

/-- The watchlist table: column names plus parsed rows. -/
structure SheetTable where
  columns : List String
  rows : List Row
deriving DecidableEq

/-- Empty pandas table with columns Ticker, Cost and Note (line 33). -/
def emptyWatchlistTable : SheetTable :=
  { columns := ["Ticker", "Cost", "Note"], rows := [] }

/-- Loader `load_data_from_sheets` (lines 26–33): a successful read returns the
table as-is; a raised exception is caught, a non-fatal `st.error` notice
is emitted and the empty Ticker/Cost/Note table is returned. The second
component of the pair is the notice (if any). -/
def load_data_from_sheets (readResult : Except String SheetTable) :
    SheetTable × Option String :=
  match readResult with
  | Except.ok t => (t, none)
  | Except.error e =>
      (emptyWatchlistTable,
       some (String.append "雲端資料讀取失敗，請檢查網址與權限。錯誤: " e))

/-- Time-to-live of 600 seconds taken from the cache decorator on line 25. -/
def cache_ttl_seconds : ℕ := 600

/-- State of the timed memo holding one cached value with its store time. -/
structure MemoState (α : Type) where
  entry : Option (ℕ × α)
deriving DecidableEq

/-- Modelled from the spec: the timed memoization applied to
`load_data_from_sheets` by the external `st.cache_data` decorator
("Result is memoized for a fixed duration (10 minutes) to bound external
calls; no invalidation other than time expiry").  A cached value younger
than the ttl is returned as-is; otherwise the loader recomputes and the
memo is refreshed.  Times are in seconds. -/
def cached_read {α : Type} (now : ℕ) (st : MemoState α) (compute : Unit → α) :
    α × MemoState α :=
  match st.entry with
  | some (t, v) =>
      if now - t < cache_ttl_seconds then (v, st)
      else
        let v2 := compute ()
        (v2, { entry := some (now, v2) })
  | none =>
      let v2 := compute ()
      (v2, { entry := some (now, v2) })

/-- Lines 106 and 108 of the page loop: cost becomes 0 when the Cost cell is
missing or NaN, and the analyzer receives cost when 0 < cost and None otherwise. -/
def effectiveCost (r : Row) : Option ℚ :=
  let cost := r.cost.getD 0
  if 0 < cost then some cost else none

/-- The third and fourth headline metric tiles: either return-on-cost and
stop-loss (cost basis supplied) or stochastic K and RSI (lines 123–128). -/
inductive Metrics34 where
  | roiStop (roi stopLoss : ℚ)
  | kRsi (k rsi : ℚ)
deriving DecidableEq

/-- Everything the page emits for one successfully analyzed symbol
(lines 110–157): header, status tag, the four headline metrics (the
first two are price and intrinsic value), the optional stop-loss warning
banner and the templated narrative pieces. -/
structure Card where
  symbol : String
  shortName : String
  status_color : String
  trendTag : String
  price : ℚ
  model_type : String
  intrinsic : ℚ
  metrics34 : Metrics34
  warning : Bool
  buy_signal : String
  tech_signal : String
  recommendation : String
deriving DecidableEq

/-- Rendering of one result record as a card (lines 110–157). -/
def renderCard (symbol : String) (res : AnalysisResult) : Card :=
  { symbol := symbol
    shortName := res.info.shortName.getD ""
    status_color := if strContains res.trend "強勢" then "green" else "orange"
    trendTag := res.trend
    price := res.price
    model_type := res.model_type
    intrinsic := res.intrinsic
    metrics34 :=
      match res.roi with
      | some r => Metrics34.roiStop r res.stop_loss
      | none => Metrics34.kRsi res.k res.rsi
    warning := res.roi.isSome && decide (res.price < res.stop_loss)
    buy_signal := if res.price < res.intrinsic then "具備安全邊際" else "股價偏高"
    tech_signal := if 0 < res.macd_h then "動能轉強" else "動能疲弱"
    recommendation :=
      if 0 < res.macd_h ∧ res.price < res.intrinsic then "偏多操作" else "暫時觀望" }

/-- The page loop (lines 104–157): one analyzer call per watchlist row in
order; a `None` result (`if res:` is False) produces no card and the loop
moves on to the next row.  The `oracle` argument supplies the external fetch
outcome of each row. -/
def runPage (rows : List Row) (oracle : Row → Option FetchData) : List Card :=
  rows.filterMap (fun row =>
    Option.map (renderCard row.ticker.trim)
      (get_stock_analysis (oracle row) (effectiveCost row)))

/-! ## Helper lemmas shared by the claim theorems -/

/-- Inversion: a successful analyzer run forces at least two bars and pins
every field of the result record to the source formulas. -/
theorem analysis_success_shape {d : FetchData} {c : Option ℚ} {r : AnalysisResult}
    (h : get_stock_analysis (some d) c = some r) :
    ∃ curr, d.series.getLast? = some curr ∧ 2 ≤ d.series.length ∧
      r = { series := d.series
            info := d.info
            price := curr.close
            intrinsic := if is_pb_model (d.info.industry.getD "")
                         then d.info.bookValue.getD 0 * (13 / 10 : ℚ)
                         else d.info.trailingEps.getD 0 * d.info.trailingPE.getD 15
            model_type := if is_pb_model (d.info.industry.getD "") then "P/B" else "P/E"
            k := d.stochK
            rsi := d.rsi14
            macd_h := d.macdH
            stop_loss := curr.close - d.atr14 * 2
            trend := trendLabel curr.close (sma 20 (d.series.map PriceBar.close))
            roi := roiOf curr.close c } := by
  unfold get_stock_analysis at h
  cases hl : d.series.getLast? with
  | none => simp [hl] at h
  | some curr =>
    simp only [hl] at h
    by_cases hlen : d.series.length < 2
    · simp [if_pos hlen] at h
    · simp only [if_neg hlen, Option.some.injEq] at h
      exact ⟨curr, rfl, by omega, h.symm⟩

/-- `lastCloseOf` agrees with the close of the last bar. -/
theorem lastCloseOf_eq {d : FetchData} {curr : PriceBar}
    (hl : d.series.getLast? = some curr) : lastCloseOf d = curr.close := by
  unfold lastCloseOf
  rw [hl]

/-- The roi slot is populated exactly when the page loop passed a positive
cost basis through `effectiveCost`. -/
theorem roiOf_effectiveCost_isSome (x : ℚ) (row : Row) :
    (roiOf x (effectiveCost row)).isSome = true ↔ ∃ cv, row.cost = some cv ∧ 0 < cv := by
  unfold roiOf effectiveCost
  cases hc : row.cost with
  | none =>
    simp
  | some cv =>
    by_cases hpos : 0 < cv
    · have hne : cv ≠ 0 := ne_of_gt hpos
      simp [if_pos hpos, if_neg hne, hpos]
    · simp [if_neg hpos, hpos]

/-- A populated option equals `some` of its `getD`. -/
theorem eq_some_getD {α : Type} {o : Option α} (d : α) (h : o.isSome = true) :
    o = some (o.getD d) := by
  cases o with
  | none => exact absurd h (by simp)
  | some v => rfl

/-! ## Concrete demonstration data used by the witness theorems -/

/-- A fallback result record (used only as the `getD` default below). -/
def noResult : AnalysisResult :=
  { series := []
    info := { industry := none, trailingEps := none, trailingPE := none,
              bookValue := none, shortName := none }
    price := 0, intrinsic := 0, model_type := "", k := 0, rsi := 0
    macd_h := 0, stop_loss := 0, trend := "", roi := none }

/-- A demo bar. -/
def bar1 : PriceBar := { openP := 100, high := 110, low := 95, close := 105, volume := 1000 }

/-- A second demo bar (the latest one of the two-bar demo series). -/
def bar2 : PriceBar := { openP := 105, high := 112, low := 100, close := 108, volume := 1200 }

/-- Demo metadata whose industry matches the `Bank` keyword. -/
def demoInfoPB : Info :=
  { industry := some "Regional Banks", trailingEps := some 5, trailingPE := some 12,
    bookValue := some 20, shortName := some "DemoBank" }

/-- Demo fetch outcome for the P/B-industry symbol: two bars, ATR 5. -/
def demoFetchPB : FetchData :=
  { series := [bar1, bar2], info := demoInfoPB, stochK := 50, rsi14 := 55,
    macdH := 1, atr14 := 5 }

/-- Result of the analyzer on `demoFetchPB` with no cost basis. -/
def demoResPB : AnalysisResult :=
  (get_stock_analysis (some demoFetchPB) none).getD noResult

/-! ## Claim theorems -/

/-- C1: if the fetched industry string contains one of `"Bank"`,
`"Insurance"`, `"Shipping"`, `"Steel"`, `"Basic Materials"` as a
case-sensitive substring (the `is_pb_model` test), the analyzer picks the
Price-to-Book model with intrinsic = bookValue × 1.3; otherwise it picks
Price-to-Earnings with intrinsic = trailingEPS × trailingPE, the
trailingPE defaulting to 15 when the field is absent. -/
theorem C1_valuation_model (d : FetchData) (c : Option ℚ) (r : AnalysisResult)
    (h : get_stock_analysis (some d) c = some r) :
    (is_pb_model (d.info.industry.getD "") = true →
        r.model_type = "P/B" ∧ r.intrinsic = d.info.bookValue.getD 0 * (13 / 10 : ℚ)) ∧
    (is_pb_model (d.info.industry.getD "") = false →
        r.model_type = "P/E" ∧
        r.intrinsic = d.info.trailingEps.getD 0 * d.info.trailingPE.getD 15) ∧
    (is_pb_model (d.info.industry.getD "") = false → d.info.trailingPE = none →
        r.intrinsic = d.info.trailingEps.getD 0 * 15) := by
  obtain ⟨curr, hl, hlen, rfl⟩ := analysis_success_shape h
  refine ⟨fun hpb => ?_, fun hpe => ?_, fun hpe hnone => ?_⟩
  · simp [hpb]
  · simp [hpe]
  · simp [hpe, hnone]

/-- C1 witness: the concrete banking-industry symbol gets the P/B model
and intrinsic value 20 × 1.3 = 26. -/
theorem C1_witness :
    demoResPB.model_type = "P/B" ∧ demoResPB.intrinsic = 26 := by
  have hs : (get_stock_analysis (some demoFetchPB) none).isSome = true := by decide
  have h1 := (C1_valuation_model demoFetchPB none demoResPB (eq_some_getD noResult hs)).1
    (by decide)
  refine ⟨h1.1, ?_⟩
  rw [h1.2]
  norm_num [demoFetchPB, demoInfoPB]

/-- C2: every produced result has stop-loss = latest close − 2 × ATR(14),
for every cost-basis argument (present or absent). -/
theorem C2_stop_loss (d : FetchData) (c : Option ℚ) (r : AnalysisResult)
    (h : get_stock_analysis (some d) c = some r) :
    r.stop_loss = lastCloseOf d - 2 * d.atr14 := by
  obtain ⟨curr, hl, hlen, rfl⟩ := analysis_success_shape h
  rw [lastCloseOf_eq hl]
  show curr.close - d.atr14 * 2 = curr.close - 2 * d.atr14
  ring

/-- C2 witness: for the two-bar demo data the stop-loss is 108 − 2·5 = 98. -/
theorem C2_witness : demoResPB.stop_loss = 98 := by
  have hs : (get_stock_analysis (some demoFetchPB) none).isSome = true := by decide
  have h := C2_stop_loss demoFetchPB none demoResPB (eq_some_getD noResult hs)
  rw [h]
  norm_num [lastCloseOf, demoFetchPB, bar2]

/-- Demo metadata of a non-P/B industry. -/
def demoInfoPE : Info :=
  { industry := some "Semiconductors", trailingEps := some 5, trailingPE := some 12,
    bookValue := some 20, shortName := some "DemoChip" }

/-- A twenty-bar demo series: nineteen copies of `bar1` and then `bar2`. -/
def series20 : List PriceBar :=
  [bar1, bar1, bar1, bar1, bar1, bar1, bar1, bar1, bar1, bar1,
   bar1, bar1, bar1, bar1, bar1, bar1, bar1, bar1, bar1, bar2]

/-- Demo fetch outcome with a twenty-bar series for the P/E symbol. -/
def demoFetch20 : FetchData :=
  { series := series20, info := demoInfoPE, stochK := 50, rsi14 := 55,
    macdH := 1, atr14 := 5 }

/-- Result of the analyzer on `demoFetch20` with cost basis 100. -/
def demoRes20 : AnalysisResult :=
  (get_stock_analysis (some demoFetch20) (some 100)).getD noResult

/-- C3: when the 20-day moving average of closes is defined (at least 20
bars), the trend tag is the strong label exactly when the latest close is
strictly above it, and the weak label on equality. -/
theorem C3_trend_label (d : FetchData) (c : Option ℚ) (r : AnalysisResult) (m : ℚ)
    (h : get_stock_analysis (some d) c = some r)
    (hm : sma 20 (d.series.map PriceBar.close) = some m) :
    (r.trend = strongLabel ↔ m < lastCloseOf d) ∧
    (lastCloseOf d = m → r.trend = weakLabel) := by
  obtain ⟨curr, hl, hlen, rfl⟩ := analysis_success_shape h
  rw [lastCloseOf_eq hl]
  constructor
  · show trendLabel curr.close (sma 20 (d.series.map PriceBar.close)) = strongLabel ↔
      m < curr.close
    rw [hm]
    show (if m < curr.close then strongLabel else weakLabel) = strongLabel ↔ m < curr.close
    by_cases hlt : m < curr.close
    · simp [if_pos hlt, hlt]
    · rw [if_neg hlt]
      constructor
      · intro hw
        exact absurd hw (by decide)
      · intro hc
        exact absurd hc hlt
  · intro he
    show trendLabel curr.close (sma 20 (d.series.map PriceBar.close)) = weakLabel
    rw [hm]
    show (if m < curr.close then strongLabel else weakLabel) = weakLabel
    rw [if_neg (by rw [he]; exact lt_irrefl m)]

/-- C3 witness: with nineteen closes of 105 and a latest close of 108 the
moving average is 2103/20 = 105.15 < 108, so the tag is the strong label. -/
theorem C3_witness : demoRes20.trend = strongLabel := by
  have hs : (get_stock_analysis (some demoFetch20) (some 100)).isSome = true := by decide
  have hm : sma 20 (demoFetch20.series.map PriceBar.close) = some (2103 / 20) := by
    norm_num [sma, demoFetch20, series20, bar1, bar2]
  have hL : lastCloseOf demoFetch20 = 108 := rfl
  exact (C3_trend_label demoFetch20 (some 100) demoRes20 (2103 / 20)
    (eq_some_getD noResult hs) hm).1.mpr (by rw [hL]; norm_num)

/-- The card shows the roi/stop-loss metric pair when the roi slot is populated. -/
theorem renderCard_metrics34_some (s : String) (res : AnalysisResult) (v : ℚ)
    (hv : res.roi = some v) :
    (renderCard s res).metrics34 = Metrics34.roiStop v res.stop_loss := by
  show (match res.roi with
        | some r => Metrics34.roiStop r res.stop_loss
        | none => Metrics34.kRsi res.k res.rsi) = Metrics34.roiStop v res.stop_loss
  rw [hv]

/-- The card shows the K/RSI metric pair when the roi slot is empty. -/
theorem renderCard_metrics34_none (s : String) (res : AnalysisResult)
    (hv : res.roi = none) :
    (renderCard s res).metrics34 = Metrics34.kRsi res.k res.rsi := by
  show (match res.roi with
        | some r => Metrics34.roiStop r res.stop_loss
        | none => Metrics34.kRsi res.k res.rsi) = Metrics34.kRsi res.k res.rsi
  rw [hv]

/-- The warning banner fires exactly when roi is populated and price sits
strictly below the stop-loss. -/
theorem renderCard_warning_iff (s : String) (res : AnalysisResult) :
    ((renderCard s res).warning = true ↔
      res.roi.isSome = true ∧ res.price < res.stop_loss) := by
  show (res.roi.isSome && decide (res.price < res.stop_loss)) = true ↔ _
  simp [Bool.and_eq_true]

/-- A demo watchlist row carrying cost basis 100. -/
def demoRow : Row := { ticker := "2330.TW", cost := some 100, note := none }

/-- C4: roi (returnOnCost) is populated exactly when the cost basis of the row
is present and strictly positive, in which case it equals
(latestClose − costBasis) / costBasis × 100; the third/fourth headline
tiles show roi and stop-loss when roi is populated and stochastic K and
RSI when it is absent. -/
theorem C4_return_on_cost (row : Row) (d : FetchData) (r : AnalysisResult)
    (h : get_stock_analysis (some d) (effectiveCost row) = some r) :
    (r.roi.isSome = true ↔ ∃ cv, row.cost = some cv ∧ 0 < cv) ∧
    (∀ cv, row.cost = some cv → 0 < cv →
        r.roi = some ((lastCloseOf d - cv) / cv * 100)) ∧
    (∀ v, r.roi = some v →
        (renderCard row.ticker.trim r).metrics34 = Metrics34.roiStop v r.stop_loss) ∧
    (r.roi = none →
        (renderCard row.ticker.trim r).metrics34 = Metrics34.kRsi r.k r.rsi) := by
  obtain ⟨curr, hl, hlen, hr⟩ := analysis_success_shape h
  have hroi : r.roi = roiOf curr.close (effectiveCost row) := by rw [hr]
  refine ⟨?_, ?_, ?_, ?_⟩
  · rw [hroi]
    exact roiOf_effectiveCost_isSome curr.close row
  · intro cv hc hpos
    have heff : effectiveCost row = some cv := by
      unfold effectiveCost
      rw [hc]
      simp [hpos]
    rw [hroi, heff, lastCloseOf_eq hl]
    show (if cv = 0 then none else some ((curr.close - cv) / cv * 100)) =
      some ((curr.close - cv) / cv * 100)
    rw [if_neg (ne_of_gt hpos)]
  · intro v hv
    exact renderCard_metrics34_some row.ticker.trim r v hv
  · intro hv
    exact renderCard_metrics34_none row.ticker.trim r hv

/-- C4 witness: cost basis 100 with latest close 108 gives roi 8% and the
roi/stop-loss metric pair. -/
theorem C4_witness :
    demoRes20.roi = some 8 ∧
    (renderCard demoRow.ticker.trim demoRes20).metrics34 =
      Metrics34.roiStop 8 demoRes20.stop_loss := by
  have heff : effectiveCost demoRow = some 100 := by norm_num [effectiveCost, demoRow]
  have hs : (get_stock_analysis (some demoFetch20) (some 100)).isSome = true := by decide
  have h : get_stock_analysis (some demoFetch20) (effectiveCost demoRow) = some demoRes20 := by
    rw [heff]
    exact eq_some_getD noResult hs
  have hC := C4_return_on_cost demoRow demoFetch20 demoRes20 h
  have h2 := hC.2.1 100 rfl (by norm_num)
  have h8 : ((lastCloseOf demoFetch20 - 100) / 100 * 100 : ℚ) = 8 := by
    have hL : lastCloseOf demoFetch20 = 108 := rfl
    rw [hL]
    norm_num
  rw [h8] at h2
  exact ⟨h2, hC.2.2.1 8 h2⟩

/-- Demo fetch whose (externally supplied) ATR is negative, the only way
`price < stop_loss` can hold since price and stop-loss share the same
latest close. -/
def demoFetchWarn : FetchData :=
  { series := [bar1, bar2], info := demoInfoPE, stochK := 50, rsi14 := 55,
    macdH := 1, atr14 := -5 }

/-- Result of the analyzer on `demoFetchWarn` with cost basis 100. -/
def demoResWarn : AnalysisResult :=
  (get_stock_analysis (some demoFetchWarn) (some 100)).getD noResult

/-- C5: the warning banner appears exactly when the page loop passed a
present, strictly positive cost basis (so roi exists) and the latest
price sits strictly below the computed stop-loss. -/
theorem C5_warning_banner (row : Row) (d : FetchData) (r : AnalysisResult)
    (h : get_stock_analysis (some d) (effectiveCost row) = some r) :
    ((renderCard row.ticker.trim r).warning = true ↔
      (∃ cv, row.cost = some cv ∧ 0 < cv) ∧ r.price < r.stop_loss) := by
  obtain ⟨curr, hl, hlen, hr⟩ := analysis_success_shape h
  have hroi : r.roi = roiOf curr.close (effectiveCost row) := by rw [hr]
  rw [renderCard_warning_iff, hroi, roiOf_effectiveCost_isSome]

/-- C5 witness: with cost basis 100, price 108 and stop-loss 118 the
banner fires. -/
theorem C5_witness : (renderCard demoRow.ticker.trim demoResWarn).warning = true := by
  have heff : effectiveCost demoRow = some 100 := by norm_num [effectiveCost, demoRow]
  have hs : (get_stock_analysis (some demoFetchWarn) (some 100)).isSome = true := by decide
  have h : get_stock_analysis (some demoFetchWarn) (effectiveCost demoRow) =
      some demoResWarn := by
    rw [heff]
    exact eq_some_getD noResult hs
  have hp : demoResWarn.price = 108 := rfl
  have hst : demoResWarn.stop_loss = 108 - (-5) * 2 := rfl
  exact (C5_warning_banner demoRow demoFetchWarn demoResWarn h).mpr
    ⟨⟨100, rfl, by norm_num⟩, by rw [hp, hst]; norm_num⟩

/-- A demo row whose fetch fails. -/
def badTickerRow : Row := { ticker := "BAD.TW", cost := none, note := none }

/-- A demo fetch oracle: the bad ticker raises (none), everything else
yields the two-bar banking fetch. -/
def demoOracle : Row → Option FetchData :=
  fun row => if row.ticker = "BAD.TW" then none else some demoFetchPB

/-- C6: a failed fetch (any exception, modelled as `none`) or an empty bar
series makes the analyzer return the unavailable sentinel, and a row whose
analysis is unavailable contributes no card while the cards of every other
row are unchanged. -/
theorem C6_unavailable_and_skip :
    (∀ c, get_stock_analysis none c = none) ∧
    (∀ (d : FetchData) (c : Option ℚ), d.series = [] →
        get_stock_analysis (some d) c = none) ∧
    (∀ (pre post : List Row) (badRow : Row) (oracle : Row → Option FetchData),
        get_stock_analysis (oracle badRow) (effectiveCost badRow) = none →
        runPage (pre ++ badRow :: post) oracle =
          runPage pre oracle ++ runPage post oracle) := by
  refine ⟨fun c => rfl, fun d c hser => ?_, fun pre post badRow oracle hbad => ?_⟩
  · have hl : d.series.getLast? = none := by rw [hser]; rfl
    unfold get_stock_analysis
    simp [hl]
  · unfold runPage
    rw [List.filterMap_append]
    congr 1
    simp only [List.filterMap_cons, hbad, Option.map_none']

/-- C6 witness: the bad row yields no card while the following row still
renders exactly as it would alone. -/
theorem C6_witness :
    runPage [badTickerRow, demoRow] demoOracle =
      runPage [] demoOracle ++ runPage [demoRow] demoOracle := by
  have hbad : get_stock_analysis (demoOracle badTickerRow)
      (effectiveCost badTickerRow) = none := by
    have ho : demoOracle badTickerRow = none := rfl
    rw [ho]
    rfl
  exact C6_unavailable_and_skip.2.2 [] [demoRow] badTickerRow demoOracle hbad

/-- C7: a failed watchlist read degrades to the empty Ticker/Cost/Note
table plus a non-fatal notice; the memo ttl is 600 s = 10 minutes, a
cached value younger than the ttl is served without recomputation, and an
expired one is recomputed with the memo refreshed (time being the only
invalidation). -/
theorem C7_loader_degradation_and_memo :
    (∀ e, load_data_from_sheets (Except.error e) =
        (emptyWatchlistTable,
         some (String.append "雲端資料讀取失敗，請檢查網址與權限。錯誤: " e))) ∧
    emptyWatchlistTable.columns = ["Ticker", "Cost", "Note"] ∧
    emptyWatchlistTable.rows = [] ∧
    cache_ttl_seconds = 10 * 60 ∧
    (∀ (now t : ℕ) (v : SheetTable) (f : Unit → SheetTable),
        now - t < cache_ttl_seconds →
        cached_read now { entry := some (t, v) } f = (v, { entry := some (t, v) })) ∧
    (∀ (now t : ℕ) (v : SheetTable) (f : Unit → SheetTable),
        ¬ now - t < cache_ttl_seconds →
        cached_read now { entry := some (t, v) } f =
          (f (), { entry := some (now, f ()) })) := by
  refine ⟨fun e => rfl, rfl, rfl, rfl, fun now t v f hlt => ?_, fun now t v f hge => ?_⟩
  · show (if now - t < cache_ttl_seconds
          then (v, ({ entry := some (t, v) } : MemoState SheetTable))
          else (f (), { entry := some (now, f ()) })) = (v, { entry := some (t, v) })
    rw [if_pos hlt]
  · show (if now - t < cache_ttl_seconds
          then (v, ({ entry := some (t, v) } : MemoState SheetTable))
          else (f (), { entry := some (now, f ()) })) = (f (), { entry := some (now, f ()) })
    rw [if_neg hge]

/-- C7 witness: a concrete failed read degrades to the empty table with a
notice, and a 300-second-old memo entry is served from cache. -/
theorem C7_witness :
    load_data_from_sheets (Except.error "boom") =
      (emptyWatchlistTable,
       some (String.append "雲端資料讀取失敗，請檢查網址與權限。錯誤: " "boom")) ∧
    cached_read 300 { entry := some (0, emptyWatchlistTable) }
        (fun _ => emptyWatchlistTable) =
      (emptyWatchlistTable, { entry := some (0, emptyWatchlistTable) }) :=
  ⟨C7_loader_degradation_and_memo.1 "boom",
   C7_loader_degradation_and_memo.2.2.2.2.1 300 0 emptyWatchlistTable
     (fun _ => emptyWatchlistTable) (by decide)⟩

/-- C8: the narrative states the margin-of-safety verdict exactly when
price < intrinsic, the strengthening verdict exactly when the MACD
histogram is strictly positive, the bullish recommendation exactly when
both hold, and the waiting recommendation otherwise. -/
theorem C8_narrative (s : String) (r : AnalysisResult) :
    ((renderCard s r).buy_signal = "具備安全邊際" ↔ r.price < r.intrinsic) ∧
    ((renderCard s r).tech_signal = "動能轉強" ↔ 0 < r.macd_h) ∧
    ((renderCard s r).recommendation = "偏多操作" ↔
      (0 < r.macd_h ∧ r.price < r.intrinsic)) ∧
    ((renderCard s r).recommendation = "暫時觀望" ↔
      ¬ (0 < r.macd_h ∧ r.price < r.intrinsic)) := by
  refine ⟨?_, ?_, ?_, ?_⟩
  · show (if r.price < r.intrinsic then "具備安全邊際" else "股價偏高") = "具備安全邊際" ↔ _
    by_cases hc : r.price < r.intrinsic
    · rw [if_pos hc]
      simp [hc]
    · rw [if_neg hc]
      constructor
      · intro hw
        exact absurd hw (by decide)
      · intro hcc
        exact absurd hcc hc
  · show (if 0 < r.macd_h then "動能轉強" else "動能疲弱") = "動能轉強" ↔ _
    by_cases hc : 0 < r.macd_h
    · rw [if_pos hc]
      simp [hc]
    · rw [if_neg hc]
      constructor
      · intro hw
        exact absurd hw (by decide)
      · intro hcc
        exact absurd hcc hc
  · show (if 0 < r.macd_h ∧ r.price < r.intrinsic then "偏多操作" else "暫時觀望") =
      "偏多操作" ↔ _
    by_cases hc : 0 < r.macd_h ∧ r.price < r.intrinsic
    · rw [if_pos hc]
      simp [hc]
    · rw [if_neg hc]
      constructor
      · intro hw
        exact absurd hw (by decide)
      · intro hcc
        exact absurd hcc hc
  · show (if 0 < r.macd_h ∧ r.price < r.intrinsic then "偏多操作" else "暫時觀望") =
      "暫時觀望" ↔ _
    by_cases hc : 0 < r.macd_h ∧ r.price < r.intrinsic
    · rw [if_pos hc]
      constructor
      · intro hw
        exact absurd hw (by decide)
      · intro hcc
        exact absurd hc hcc
    · rw [if_neg hc]
      simp [hc]

/-- Demo metadata of a non-P/B industry with a missing trailing EPS. -/
def demoInfoNoEps : Info :=
  { industry := some "Semiconductors", trailingEps := none, trailingPE := some 12,
    bookValue := some 20, shortName := some "DemoChip2" }

/-- Demo fetch outcome for the missing-EPS symbol. -/
def demoFetchNoEps : FetchData :=
  { series := [bar1, bar2], info := demoInfoNoEps, stochK := 50, rsi14 := 55,
    macdH := 1, atr14 := 5 }

/-- Result of the analyzer on `demoFetchNoEps` with no cost basis. -/
def demoResNoEps : AnalysisResult :=
  (get_stock_analysis (some demoFetchNoEps) none).getD noResult

/-- C9: a missing bookValue (P/B branch) or trailingEps (P/E branch)
defaults to zero, making the intrinsic value 0 while the result is still
produced (not the unavailable sentinel); only a missing trailingPE is
defaulted to 15. -/
theorem C9_missing_field_defaults (d : FetchData) (c : Option ℚ) (r : AnalysisResult)
    (h : get_stock_analysis (some d) c = some r) :
    (is_pb_model (d.info.industry.getD "") = true → d.info.bookValue = none →
        r.intrinsic = 0) ∧
    (is_pb_model (d.info.industry.getD "") = false → d.info.trailingEps = none →
        r.intrinsic = 0) ∧
    (is_pb_model (d.info.industry.getD "") = false → d.info.trailingPE = none →
        r.intrinsic = d.info.trailingEps.getD 0 * 15) := by
  obtain ⟨curr, hl, hlen, hr⟩ := analysis_success_shape h
  have hi : r.intrinsic = if is_pb_model (d.info.industry.getD "")
      then d.info.bookValue.getD 0 * (13 / 10 : ℚ)
      else d.info.trailingEps.getD 0 * d.info.trailingPE.getD 15 := by rw [hr]
  refine ⟨fun hpb hbv => ?_, fun hpe heps => ?_, fun hpe hnopte => ?_⟩
  · rw [hi, if_pos hpb, hbv]
    norm_num
  · rw [hi, if_neg (by simp [hpe]), heps]
    norm_num
  · rw [hi, if_neg (by simp [hpe]), hnopte]
    rfl

/-- C9 witness: the missing-EPS symbol still yields a populated result and
its intrinsic value is 0. -/
theorem C9_witness :
    get_stock_analysis (some demoFetchNoEps) none = some demoResNoEps ∧
    demoResNoEps.intrinsic = 0 := by
  have hs : (get_stock_analysis (some demoFetchNoEps) none).isSome = true := by decide
  have h := eq_some_getD noResult hs
  exact ⟨h, (C9_missing_field_defaults demoFetchNoEps none demoResNoEps h).2.1
    (by decide) rfl⟩

/-- Demo fetch outcome with a single bar. -/
def demoFetch1 : FetchData :=
  { series := [bar1], info := demoInfoPE, stochK := 50, rsi14 := 55,
    macdH := 1, atr14 := 5 }

/-- C10: a one-bar series (non-empty, shorter than two rows) makes the
analyzer return the unavailable sentinel — `df.iloc[-2]` raises and the
blanket handler absorbs it — so a populated result requires at least two
bars. -/
theorem C10_single_bar_unavailable :
    (∀ (d : FetchData) (c : Option ℚ), d.series.length = 1 →
        get_stock_analysis (some d) c = none) ∧
    (∀ (d : FetchData) (c : Option ℚ) (r : AnalysisResult),
        get_stock_analysis (some d) c = some r → 2 ≤ d.series.length) := by
  constructor
  · intro d c h1
    unfold get_stock_analysis
    cases hl : d.series.getLast? with
    | none => simp [hl]
    | some curr =>
      have hlt : d.series.length < 2 := by omega
      simp [hl, hlt]
  · intro d c r h
    obtain ⟨curr, hl, hlen, hr⟩ := analysis_success_shape h
    exact hlen

/-- C10 witness: the concrete one-bar fetch yields the sentinel. -/
theorem C10_witness : get_stock_analysis (some demoFetch1) none = none :=
  C10_single_bar_unavailable.1 demoFetch1 none rfl

end StockAI
